import Mathlib

/-!
Shallow embedding of the drand-rs beacon verification core
(src/drand_core/src/beacon.rs) and the chain-info record it verifies
against. Byte sequences are lists of naturals (each byte < 256 in real
data; the operations below never depend on that bound). Rust `Result`
values and panics are modelled by the `RunResult` outcome type. The
SHA-256 primitive (external crate `sha2`) and the pairing signature
primitive (module `bls_signatures`, deliberately opaque in the design)
are parameters of the definitions that call them.
-/

namespace Drand

/-- A byte string, as `Vec<u8>` in the source. -/
abbrev Bytes := List Nat

/-- Big-endian 8-byte encoding of a `u64`, as `u64::to_be_bytes` in the
source; each byte is reduced mod 256, which agrees with the Rust value
for every `n < 2^64`. -/
def beBytes8 (n : Nat) : Bytes :=
  [n / 2 ^ 56 % 256, n / 2 ^ 48 % 256, n / 2 ^ 40 % 256, n / 2 ^ 32 % 256,
   n / 2 ^ 24 % 256, n / 2 ^ 16 % 256, n / 2 ^ 8 % 256, n % 256]

/-- Outcome of running a piece of Rust code: a normal value, an
`anyhow::Error` propagated with `?`, or a panic. -/
inductive RunResult (α : Type) where
  | ok : α → RunResult α
  | err : RunResult α
  | panicked : RunResult α
deriving DecidableEq, Repr

/-- Propagation of the Rust `?` operator: a value flows on, an error or
panic short-circuits. -/
def RunResult.bind : RunResult α → (α → RunResult β) → RunResult β
  | .ok a, f => f a
  | .err, _ => .err
  | .panicked, _ => .panicked

/-- Chained drand beacon (struct `ChainedBeacon` in beacon.rs): round,
randomness, signature and the previous round's signature. -/
structure ChainedBeacon where
  round : Nat
  randomness : Bytes
  signature : Bytes
  previous_signature : Bytes
deriving DecidableEq, Repr

/-- Unchained drand beacon (struct `UnchainedBeacon` in beacon.rs). -/
structure UnchainedBeacon where
  round : Nat
  randomness : Bytes
  signature : Bytes
deriving DecidableEq, Repr

/-- Random beacon as generated by drand (enum `RandomnessBeacon` in
beacon.rs): chained or unchained. -/
inductive RandomnessBeacon where
  | chained : ChainedBeacon → RandomnessBeacon
  | unchained : UnchainedBeacon → RandomnessBeacon
deriving DecidableEq, Repr

/-- Modelled from the spec: module `chain` (file chain.rs) is not under
src/, only its use sites are. Spec §3 describes ChainInfo as the
immutable identity of a network instance: public key (48 or 96 bytes
depending on scheme), period in seconds, genesis unix time, content
hash, and the scheme identifier string. `verify` reads it through the
accessors `scheme_id()` and `public_key()`. -/
structure ChainInfo where
  public_key : Bytes
  period : Nat
  genesis_time : Nat
  hash : Bytes
  scheme_id : String
deriving DecidableEq, Repr

/-- `slice::clone_from_slice` on a destination of length `dst.length`:
returns the copied-in contents when the lengths agree and panics
otherwise, as documented for the Rust standard library. -/
def cloneFromSlice (dst src : Bytes) : RunResult Bytes :=
  if dst.length = src.length then .ok src else .panicked

/-- `ChainedBeacon::message` (beacon.rs lines 132-144): a 104-byte buffer
is split at 96, the previous signature is copied into the first part and
the big-endian round into the second, and the buffer is hashed. `H` is
the SHA-256 primitive. -/
def ChainedBeacon.message (H : Bytes → Bytes) (c : ChainedBeacon) : RunResult Bytes :=
  let buf : Bytes := List.replicate (96 + 8) 0
  match cloneFromSlice (buf.take 96) c.previous_signature,
        cloneFromSlice (buf.drop 96) (beBytes8 c.round) with
  | .ok s, .ok r => .ok (H (s ++ r))
  | _, _ => .panicked

/-- `UnchainedBeacon::message` (beacon.rs lines 167-175): hash of the
big-endian round bytes alone. -/
def UnchainedBeacon.message (H : Bytes → Bytes) (u : UnchainedBeacon) : RunResult Bytes :=
  .ok (H (beBytes8 u.round))

/-- `RandomnessBeacon::message`: dispatch on the variant. -/
def RandomnessBeacon.message (H : Bytes → Bytes) : RandomnessBeacon → RunResult Bytes
  | .chained c => c.message H
  | .unchained u => u.message H

/-- `RandomnessBeacon::round`. -/
def RandomnessBeacon.round : RandomnessBeacon → Nat
  | .chained c => c.round
  | .unchained u => u.round

/-- `RandomnessBeacon::randomness`. -/
def RandomnessBeacon.randomness : RandomnessBeacon → Bytes
  | .chained c => c.randomness
  | .unchained u => u.randomness

/-- `RandomnessBeacon::signature`. -/
def RandomnessBeacon.signature : RandomnessBeacon → Bytes
  | .chained c => c.signature
  | .unchained u => u.signature

/-- `RandomnessBeacon::scheme_id` (beacon.rs lines 47-59): chained
beacons are "pedersen-bls-chained"; an unchained beacon is
"bls-unchained-on-g1" when its signature is 48 bytes long and
"pedersen-bls-unchained" otherwise. -/
def RandomnessBeacon.scheme_id : RandomnessBeacon → String
  | .chained _ => "pedersen-bls-chained"
  | .unchained u =>
      if u.signature.length = 48 then "bls-unchained-on-g1" else "pedersen-bls-unchained"

/-- `str::contains` with a string pattern: substring test, true exactly
when the pattern occurs contiguously in the haystack. -/
def strContains (hay pat : String) : Bool :=
  hay.toList.tails.any fun t => pat.toList.isPrefixOf t

/-- `RandomnessBeacon::is_signature_on_g1`: substring test on the scheme
identifier. -/
def RandomnessBeacon.is_signature_on_g1 (b : RandomnessBeacon) : Bool :=
  strContains b.scheme_id ("on-g1")

/-- `RandomnessBeacon::is_unchained`: substring test on the scheme
identifier. -/
def RandomnessBeacon.is_unchained (b : RandomnessBeacon) : Bool :=
  strContains b.scheme_id ("unchained")

/-- `RandomnessBeacon::verify` (beacon.rs lines 17-31), parameterized by
the SHA-256 primitive `H` and the opaque pairing primitive `pairing`
(module `bls_signatures`, out of the spec's scope): scheme mismatch
returns `Ok(false)`; otherwise the variant's message is built (a panic
or error there propagates), the pairing check runs (its error
propagates), SHA-256 of the signature is compared to the stored
randomness, and the conjunction of the two checks is returned. -/
def RandomnessBeacon.verify (H : Bytes → Bytes)
    (pairing : Bytes → Bytes → Bytes → RunResult Bool)
    (b : RandomnessBeacon) (info : ChainInfo) : RunResult Bool :=
  if b.scheme_id ≠ info.scheme_id then
    .ok false
  else
    (b.message H).bind fun msg =>
      (pairing b.signature msg info.public_key).bind fun signature_verify =>
        let randomness_verify : Bool := decide (H b.signature = b.randomness)
        .ok (signature_verify && randomness_verify)

/-! Concrete instances of the external primitives and sample data, used
by witnesses and counterexamples. -/

/-- A trivial stand-in for the SHA-256 primitive. -/
def hZero : Bytes → Bytes := fun _ => []

/-- A pairing primitive that accepts every signature. -/
def pairingOkTrue : Bytes → Bytes → Bytes → RunResult Bool := fun _ _ _ => .ok true

/-- Sample unchained beacon whose randomness agrees with `hZero` of its
signature. -/
def sampleU : UnchainedBeacon := ⟨1, [], []⟩

/-- Sample unchained beacon with a 48-byte signature. -/
def sampleU48 : UnchainedBeacon := ⟨784604, [], List.replicate 48 4⟩

/-- Sample unchained beacon sharing `sampleU7`'s round on another chain. -/
def sampleU7 : UnchainedBeacon := ⟨7, [1], [2]⟩

/-- A second beacon with round 7 but different randomness and signature. -/
def sampleU7' : UnchainedBeacon := ⟨7, [3], List.replicate 48 4⟩

/-- Sample chained beacon with a well-formed 96-byte previous signature. -/
def sampleCh : ChainedBeacon := ⟨1000000, [], [], List.replicate 96 9⟩

/-- Chain info declaring the default unchained scheme. -/
def sampleInfoU : ChainInfo := ⟨[], 30, 0, [], "pedersen-bls-unchained"⟩

/-- Chain info declaring the chained scheme. -/
def sampleInfoCh : ChainInfo := ⟨[], 30, 0, [], "pedersen-bls-chained"⟩

/-- Chain info agreeing with `sampleInfoB` on scheme and key only. -/
def sampleInfoA : ChainInfo := ⟨[1], 30, 100, [2], "pedersen-bls-unchained"⟩

/-- Chain info differing from `sampleInfoA` in period, genesis and hash. -/
def sampleInfoB : ChainInfo := ⟨[1], 60, 200, [3], "pedersen-bls-unchained"⟩

/-! Basic lemmas shared by the claim theorems below. -/

@[simp]
theorem RunResult.bind_ok (a : α) (f : α → RunResult β) :
    (RunResult.ok a).bind f = f a := rfl

@[simp]
theorem RunResult.bind_err (f : α → RunResult β) :
    (RunResult.err).bind f = (.err : RunResult β) := rfl

@[simp]
theorem RunResult.bind_panicked (f : α → RunResult β) :
    (RunResult.panicked).bind f = (.panicked : RunResult β) := rfl

/-- A chained beacon with a 96-byte previous signature builds its message
without panicking: the hash of the previous signature followed by the
big-endian round bytes. -/
theorem chained_message_of_len96 (H : Bytes → Bytes) (ch : ChainedBeacon)
    (hlen : ch.previous_signature.length = 96) :
    ChainedBeacon.message H ch = .ok (H (ch.previous_signature ++ beBytes8 ch.round)) := by
  unfold ChainedBeacon.message cloneFromSlice
  simp [hlen, beBytes8]

/-- C1: when the beacon's derived scheme identifier agrees with the chain
info's, and the message builds as `Ok m` and the opaque pairing check
returns `Ok pv`, `verify` returns exactly the conjunction of the pairing
result and the SHA256(signature) = randomness comparison; in particular
it returns `Ok true` iff both checks pass, and `Ok false` when either
fails while the other passes. -/
theorem c1_verify_both_checks (H : Bytes → Bytes)
    (p : Bytes → Bytes → Bytes → RunResult Bool)
    (b : RandomnessBeacon) (c : ChainInfo) (m : Bytes) (pv : Bool)
    (hscheme : b.scheme_id = c.scheme_id)
    (hmsg : b.message H = .ok m)
    (hpair : p b.signature m c.public_key = .ok pv) :
    RandomnessBeacon.verify H p b c = .ok (pv && decide (H b.signature = b.randomness)) ∧
      (RandomnessBeacon.verify H p b c = .ok true ↔
        (pv = true ∧ H b.signature = b.randomness)) := by
  unfold RandomnessBeacon.verify
  rw [if_neg (by simp [hscheme])]
  simp only [hmsg, RunResult.bind_ok, hpair]
  simp [Bool.and_eq_true]

/-- Witness for C1 at a concrete beacon and chain with agreeing scheme
identifiers. -/
theorem c1_witness :
    RandomnessBeacon.verify hZero pairingOkTrue (.unchained sampleU) sampleInfoU =
        .ok (true && decide (hZero (RandomnessBeacon.signature (.unchained sampleU)) =
          RandomnessBeacon.randomness (.unchained sampleU))) ∧
      (RandomnessBeacon.verify hZero pairingOkTrue (.unchained sampleU) sampleInfoU =
          .ok true ↔
        (true = true ∧ hZero (RandomnessBeacon.signature (.unchained sampleU)) =
          RandomnessBeacon.randomness (.unchained sampleU))) :=
  c1_verify_both_checks hZero pairingOkTrue (.unchained sampleU) sampleInfoU [] true
    (by decide) rfl rfl

/-- C2: for a chained beacon whose previous signature is exactly 96
bytes, the signed message is SHA256 of the 104-byte concatenation of the
previous signature and the 8 big-endian round bytes; the rule is uniform
in the round (the theorem quantifies over every round, round 0
included) and uses whatever previous signature is supplied. -/
theorem c2_chained_message (H : Bytes → Bytes) (ch : ChainedBeacon)
    (hlen : ch.previous_signature.length = 96) :
    ChainedBeacon.message H ch = .ok (H (ch.previous_signature ++ beBytes8 ch.round)) ∧
      (ch.previous_signature ++ beBytes8 ch.round).length = 104 := by
  refine ⟨chained_message_of_len96 H ch hlen, ?_⟩
  simp [hlen, beBytes8]

/-- Witness for C2 at a concrete chained beacon with a 96-byte previous
signature. -/
theorem c2_witness :
    ChainedBeacon.message hZero sampleCh =
        .ok (hZero (sampleCh.previous_signature ++ beBytes8 sampleCh.round)) ∧
      (sampleCh.previous_signature ++ beBytes8 sampleCh.round).length = 104 :=
  c2_chained_message hZero sampleCh (by decide)

/-- C3: the derived scheme identifier is "pedersen-bls-chained" for every
chained beacon, "bls-unchained-on-g1" for an unchained beacon with a
48-byte signature, and "pedersen-bls-unchained" for an unchained beacon
with a signature of any other length. -/
theorem c3_scheme_id (ch : ChainedBeacon) (u : UnchainedBeacon) :
    (RandomnessBeacon.chained ch).scheme_id = "pedersen-bls-chained" ∧
      (u.signature.length = 48 →
        (RandomnessBeacon.unchained u).scheme_id = "bls-unchained-on-g1") ∧
      (u.signature.length ≠ 48 →
        (RandomnessBeacon.unchained u).scheme_id = "pedersen-bls-unchained") := by
  refine ⟨rfl, fun h => ?_, fun h => ?_⟩ <;> simp [RandomnessBeacon.scheme_id, h]

/-- Witness for C3: the three classifications at concrete beacons with
96-byte, 48-byte and 0-byte signatures respectively. -/
theorem c3_witness :
    (RandomnessBeacon.chained sampleCh).scheme_id = "pedersen-bls-chained" ∧
      (RandomnessBeacon.unchained sampleU48).scheme_id = "bls-unchained-on-g1" ∧
      (RandomnessBeacon.unchained sampleU).scheme_id = "pedersen-bls-unchained" :=
  ⟨(c3_scheme_id sampleCh sampleU48).1,
    (c3_scheme_id sampleCh sampleU48).2.1 (by decide),
    (c3_scheme_id sampleCh sampleU).2.2 (by decide)⟩

/-- C4: when the beacon's derived scheme identifier differs from the
chain info's declared one, `verify` returns `Ok false` — a boolean
rejection, not an error — for every pairing primitive whatsoever, so the
primitive is never consulted. -/
theorem c4_scheme_mismatch (H : Bytes → Bytes)
    (p : Bytes → Bytes → Bytes → RunResult Bool)
    (b : RandomnessBeacon) (c : ChainInfo)
    (hne : b.scheme_id ≠ c.scheme_id) :
    RandomnessBeacon.verify H p b c = .ok false := by
  unfold RandomnessBeacon.verify
  rw [if_pos hne]

/-- Witness for C4: an unchained beacon against chained chain info. -/
theorem c4_witness :
    RandomnessBeacon.verify hZero pairingOkTrue (.unchained sampleU) sampleInfoCh =
      .ok false :=
  c4_scheme_mismatch hZero pairingOkTrue (.unchained sampleU) sampleInfoCh (by decide)

/-- C5 counterexample: a chained beacon whose previous signature is empty
(length 0, not 96) makes `verify` panic even though the pairing
primitive accepts everything, refuting the claim that `verify` does not
panic for a chained beacon with a wrong-length previous signature. -/
theorem c5_counterexample :
    RandomnessBeacon.verify hZero pairingOkTrue
      (.chained ⟨1, [], [], []⟩) ⟨[], 1, 0, [], "pedersen-bls-chained"⟩ = .panicked := by
  decide

/-- C5 amended: provided every chained beacon supplied has a previous
signature of exactly 96 bytes, `verify` never panics or errors on its
own: whenever the opaque pairing primitive returns a boolean, `verify`
returns a boolean. -/
theorem c5_amended_no_panic (H : Bytes → Bytes)
    (p : Bytes → Bytes → Bytes → RunResult Bool)
    (b : RandomnessBeacon) (c : ChainInfo)
    (hp : ∀ s m k, ∃ v, p s m k = RunResult.ok v)
    (hb : ∀ ch, b = .chained ch → ch.previous_signature.length = 96) :
    ∃ v, RandomnessBeacon.verify H p b c = .ok v := by
  unfold RandomnessBeacon.verify
  by_cases hs : b.scheme_id ≠ c.scheme_id
  · rw [if_pos hs]; exact ⟨false, rfl⟩
  · rw [if_neg hs]
    have hmsg : ∃ m, b.message H = .ok m := by
      cases b with
      | chained ch =>
        have h96 := hb ch rfl
        exact ⟨H (ch.previous_signature ++ beBytes8 ch.round),
          chained_message_of_len96 H ch h96⟩
      | unchained u => exact ⟨H (beBytes8 u.round), rfl⟩
    obtain ⟨m, hm⟩ := hmsg
    obtain ⟨pv, hpv⟩ := hp b.signature m c.public_key
    simp only [hm, RunResult.bind_ok, hpv]
    exact ⟨_, rfl⟩

/-- Witness for the amended C5 at a concrete chained beacon with a
96-byte previous signature and an always-accepting primitive. -/
theorem c5_witness :
    ∃ v, RandomnessBeacon.verify hZero pairingOkTrue
      (.chained sampleCh) sampleInfoCh = .ok v :=
  c5_amended_no_panic hZero pairingOkTrue (.chained sampleCh) sampleInfoCh
    (fun _ _ _ => ⟨true, rfl⟩)
    (by intro ch h; cases h; decide)

/-- C6: an unchained beacon's message is SHA256 of the 8 big-endian round
bytes and depends on no other field: two unchained beacons with the same
round have identical messages (no chain data enters the computation at
all). -/
theorem c6_unchained_message (H : Bytes → Bytes) (u u' : UnchainedBeacon)
    (h : u.round = u'.round) :
    UnchainedBeacon.message H u = .ok (H (beBytes8 u.round)) ∧
      UnchainedBeacon.message H u = UnchainedBeacon.message H u' := by
  exact ⟨rfl, by unfold UnchainedBeacon.message; rw [h]⟩

/-- Witness for C6 at two concrete unchained beacons sharing round 7 but
differing in every other field. -/
theorem c6_witness :
    UnchainedBeacon.message hZero sampleU7 = .ok (hZero (beBytes8 sampleU7.round)) ∧
      UnchainedBeacon.message hZero sampleU7 = UnchainedBeacon.message hZero sampleU7' :=
  c6_unchained_message hZero sampleU7 sampleU7' rfl

/-- C7: if `verify` returns `Ok true` then SHA256 of the signature equals
the stored randomness (necessity), and for every hash primitive —
SHA256 in particular — and every pairing primitive there are a beacon
and chain for which that equality holds yet `verify` returns `Ok false`
(it is not sufficient). -/
theorem c7_randomness_necessary_not_sufficient (H : Bytes → Bytes)
    (p : Bytes → Bytes → Bytes → RunResult Bool)
    (b : RandomnessBeacon) (c : ChainInfo)
    (hok : RandomnessBeacon.verify H p b c = .ok true) :
    H b.signature = b.randomness ∧
      ∀ (H' : Bytes → Bytes) (p' : Bytes → Bytes → Bytes → RunResult Bool),
        ∃ (b' : RandomnessBeacon) (c' : ChainInfo),
          H' b'.signature = b'.randomness ∧
            RandomnessBeacon.verify H' p' b' c' = .ok false := by
  constructor
  · unfold RandomnessBeacon.verify at hok
    by_cases hs : b.scheme_id ≠ c.scheme_id
    · rw [if_pos hs] at hok; simp at hok
    · rw [if_neg hs] at hok
      cases hm : b.message H with
      | ok m =>
        simp only [hm, RunResult.bind_ok] at hok
        cases hpv : p b.signature m c.public_key with
        | ok pv =>
          simp only [hpv, RunResult.bind_ok] at hok
          simp [Bool.and_eq_true] at hok
          exact hok.2
        | err => simp only [hpv, RunResult.bind_err] at hok; simp at hok
        | panicked => simp only [hpv, RunResult.bind_panicked] at hok; simp at hok
      | err => simp only [hm, RunResult.bind_err] at hok; simp at hok
      | panicked => simp only [hm, RunResult.bind_panicked] at hok; simp at hok
  · intro H' p'
    refine ⟨.unchained ⟨1, H' [], []⟩, ⟨[], 1, 0, [], "mismatched-scheme"⟩, rfl, rfl⟩

/-- Witness for C7 at a concrete verifying beacon. -/
theorem c7_witness :
    hZero (RandomnessBeacon.signature (.unchained sampleU)) =
        RandomnessBeacon.randomness (.unchained sampleU) ∧
      ∀ (H' : Bytes → Bytes) (p' : Bytes → Bytes → Bytes → RunResult Bool),
        ∃ (b' : RandomnessBeacon) (c' : ChainInfo),
          H' b'.signature = b'.randomness ∧
            RandomnessBeacon.verify H' p' b' c' = .ok false :=
  c7_randomness_necessary_not_sufficient hZero pairingOkTrue
    (.unchained sampleU) sampleInfoU (by decide)

/-- C8: `verify` is deterministic and side-effect-free: two invocations
on equal inputs return equal results; the beacon is a value the call
cannot mutate, so it is unchanged by construction of the embedding. -/
theorem c8_deterministic (H : Bytes → Bytes)
    (p : Bytes → Bytes → Bytes → RunResult Bool)
    (b1 b2 : RandomnessBeacon) (c1 c2 : ChainInfo)
    (hb : b1 = b2) (hc : c1 = c2) :
    RandomnessBeacon.verify H p b1 c1 = RandomnessBeacon.verify H p b2 c2 := by
  rw [hb, hc]

/-- Witness for C8 at a concrete repeated invocation. -/
theorem c8_witness :
    RandomnessBeacon.verify hZero pairingOkTrue (.unchained sampleU) sampleInfoU =
      RandomnessBeacon.verify hZero pairingOkTrue (.unchained sampleU) sampleInfoU :=
  c8_deterministic hZero pairingOkTrue (.unchained sampleU) (.unchained sampleU)
    sampleInfoU sampleInfoU rfl rfl

/-- C9: `verify` reads only the scheme identifier and public key of the
chain info: two chain infos agreeing on those two fields but differing
in period, genesis time and hash produce the same verification result
for every beacon. -/
theorem c9_reads_only_scheme_and_key (H : Bytes → Bytes)
    (p : Bytes → Bytes → Bytes → RunResult Bool)
    (b : RandomnessBeacon) (c1 c2 : ChainInfo)
    (hs : c1.scheme_id = c2.scheme_id) (hk : c1.public_key = c2.public_key) :
    RandomnessBeacon.verify H p b c1 = RandomnessBeacon.verify H p b c2 := by
  unfold RandomnessBeacon.verify
  rw [hs, hk]

/-- Witness for C9 at two concrete chain infos differing in period,
genesis time and hash only. -/
theorem c9_witness :
    RandomnessBeacon.verify hZero pairingOkTrue (.unchained sampleU) sampleInfoA =
      RandomnessBeacon.verify hZero pairingOkTrue (.unchained sampleU) sampleInfoB :=
  c9_reads_only_scheme_and_key hZero pairingOkTrue (.unchained sampleU)
    sampleInfoA sampleInfoB rfl rfl

/-- C10: the substring-based predicates agree with the variant structure:
`is_unchained` holds exactly on the unchained variant, and
`is_signature_on_g1` holds exactly on unchained beacons with a 48-byte
signature. -/
theorem c10_predicates_match_variants (b : RandomnessBeacon) :
    (b.is_unchained = true ↔ ∃ u, b = .unchained u) ∧
      (b.is_signature_on_g1 = true ↔ ∃ u, b = .unchained u ∧ u.signature.length = 48) := by
  cases b with
  | chained ch =>
    have h1 : (RandomnessBeacon.chained ch).is_unchained = false := by
      simp only [RandomnessBeacon.is_unchained, RandomnessBeacon.scheme_id]
      decide
    have h2 : (RandomnessBeacon.chained ch).is_signature_on_g1 = false := by
      simp only [RandomnessBeacon.is_signature_on_g1, RandomnessBeacon.scheme_id]
      decide
    simp [h1, h2]
  | unchained u =>
    by_cases h : u.signature.length = 48
    · have h1 : (RandomnessBeacon.unchained u).is_unchained = true := by
        simp only [RandomnessBeacon.is_unchained, RandomnessBeacon.scheme_id, if_pos h]
        decide
      have h2 : (RandomnessBeacon.unchained u).is_signature_on_g1 = true := by
        simp only [RandomnessBeacon.is_signature_on_g1, RandomnessBeacon.scheme_id, if_pos h]
        decide
      simp [h1, h2, h]
    · have h1 : (RandomnessBeacon.unchained u).is_unchained = true := by
        simp only [RandomnessBeacon.is_unchained, RandomnessBeacon.scheme_id, if_neg h]
        decide
      have h2 : (RandomnessBeacon.unchained u).is_signature_on_g1 = false := by
        simp only [RandomnessBeacon.is_signature_on_g1, RandomnessBeacon.scheme_id, if_neg h]
        decide
      simp [h1, h2, h]

end Drand
